import Mathlib

/-!
Shallow embedding of the bimg resizer pipeline (`resizer.go` and the
`VipsImage` wrapper file).

Modelling conventions:
* Go machine integers are modelled as `Int`; Go integer division `/` and
  remainder `%` (both truncating) are `Int.tdiv` and `Int.tmod`.
* Go `float64` values are modelled as `ℚ`; every floating computation that
  the claims touch is exact rational arithmetic.
* Go byte buffers are `List Nat`; Go `error` values are `Option String`
  carrying the `errors.New` message.
* The opaque libvips image handles are a type parameter `Img`; the native
  libvips calls (which live outside the translated source) are collected in
  a `NativeFns` record of abstract fallible functions, each returning a
  result together with an optional error, exactly as the Go bindings do.
  The Go `nil` image pointer is the distinguished `NativeFns.nilImg`.
-/

namespace Bimg

/-- Image formats (bimg `ImageType`); `unknown` is the Go zero value. -/
inductive ImgType
  | unknown
  | jpeg
  | webp
  | png
  | tiff
  | gif
  deriving DecidableEq, Repr

/-- Crop gravity (bimg `Gravity`); `centre` is the Go zero value. -/
inductive Gravity
  | centre
  | north
  | east
  | south
  | west
  | smart
  deriving DecidableEq, Repr

/-- RGB colour (bimg `Color`). -/
structure Color where
  R : Int
  G : Int
  B : Int
  deriving DecidableEq, Repr

/-- bimg `ColorBlack`. -/
def ColorBlack : Color := ⟨0, 0, 0⟩

/-- Gaussian blur parameters (bimg `GaussianBlur`). -/
structure GaussianBlur where
  Sigma : ℚ
  MinAmpl : ℚ
  deriving DecidableEq, Repr

/-- Sharpen parameters (bimg `Sharpen`). -/
structure Sharpen where
  Radius : Int
  X1 : ℚ
  Y2 : ℚ
  Y3 : ℚ
  deriving DecidableEq, Repr

/-- Text watermark configuration (bimg `Watermark`), with the fields the
resizer reads or writes. -/
structure Watermark where
  Text : String
  Font : String
  Width : Int
  DPI : Int
  Margin : Int
  Opacity : ℚ
  deriving DecidableEq, Repr

/-- Image watermark configuration (bimg `WatermarkImage`). -/
structure WatermarkImage where
  Buf : List Nat
  Opacity : ℚ
  deriving DecidableEq, Repr

/-- Flip axis (bimg `Direction`). -/
inductive Direction
  | horizontal
  | vertical
  deriving DecidableEq, Repr

/-- The declarative transformation options (bimg `Options`), restricted to
the fields the translated source reads or writes.  The Go field `Type` is
renamed `typ` because `Type` is a Lean keyword.  `Rotate` is the Go `Angle`
(an integer); `Interpolator` and `Extend` and `Interpretation` are the
underlying integer enum values. -/
structure Options where
  Height : Int
  Width : Int
  AreaHeight : Int
  AreaWidth : Int
  Top : Int
  Left : Int
  Quality : Int
  Compression : Int
  Zoom : Int
  Crop : Bool
  Enlarge : Bool
  Embed : Bool
  Flip : Bool
  Flop : Bool
  Force : Bool
  NoAutoRotate : Bool
  Trim : Bool
  SmartCrop : Bool
  Extend : Int
  Rotate : Int
  Background : Color
  Gravity : Gravity
  Watermark : Watermark
  WatermarkImage : WatermarkImage
  typ : ImgType
  Interpolator : Int
  Interpretation : Int
  GaussianBlur : GaussianBlur
  Sharpen : Sharpen
  Threshold : ℚ
  MaxWidth : Int
  MaxHeight : Int
  MinWidth : Int
  MinHeight : Int
  deriving DecidableEq, Repr

/-- The Go zero value of `Options` (all numeric fields `0`, flags `false`,
strings empty, enums their zero constructor). -/
def zeroOptions : Options where
  Height := 0
  Width := 0
  AreaHeight := 0
  AreaWidth := 0
  Top := 0
  Left := 0
  Quality := 0
  Compression := 0
  Zoom := 0
  Crop := false
  Enlarge := false
  Embed := false
  Flip := false
  Flop := false
  Force := false
  NoAutoRotate := false
  Trim := false
  SmartCrop := false
  Extend := 0
  Rotate := 0
  Background := ColorBlack
  Gravity := Gravity.centre
  Watermark := ⟨"", "", 0, 0, 0, 0⟩
  WatermarkImage := ⟨[], 0⟩
  typ := ImgType.unknown
  Interpolator := 0
  Interpretation := 0
  GaussianBlur := ⟨0, 0⟩
  Sharpen := ⟨0, 0, 0, 0⟩
  Threshold := 0
  MaxWidth := 0
  MaxHeight := 0
  MinWidth := 0
  MinHeight := 0

/-- resizer.go line 16: the exported sentinel error value (its message). -/
def ErrExtractAreaParamsRequired : String :=
  "extract area width/height params are required"

/-- resizer.go `getAngle`: snap the angle down to a multiple of 90 and cap
at 270.  Go `%` is truncating remainder (`Int.tmod`); `math.Min` over the
exact integral float values is `min`. -/
def getAngle (angle : Int) : Int :=
  let divisor := angle.tmod 90
  let angle := if divisor ≠ 0 then angle - divisor else angle
  min angle 270

/-- resizer.go `roundFloat`: round half away from zero (Go `math.Floor` /
`math.Ceil` followed by the exact `int` conversion). -/
def roundFloat (f : ℚ) : Int :=
  if f < 0 then ⌈f - 1/2⌉ else ⌊f + 1/2⌋

/-- resizer.go `calculateCrop`: gravity-based crop offsets, truncating
integer division. -/
def calculateCrop (inWidth inHeight outWidth outHeight : Int) (gravity : Gravity) :
    Int × Int :=
  match gravity with
  | Gravity.north => ((inWidth - outWidth + 1).tdiv 2, 0)
  | Gravity.east => (inWidth - outWidth, (inHeight - outHeight + 1).tdiv 2)
  | Gravity.south => ((inWidth - outWidth + 1).tdiv 2, inHeight - outHeight)
  | Gravity.west => (0, (inHeight - outHeight + 1).tdiv 2)
  | _ => ((inWidth - outWidth + 1).tdiv 2, (inHeight - outHeight + 1).tdiv 2)

/-- resizer.go `extractOrEmbedImage`, crop case, lines 332-333: the
`calculateCrop` offsets clamped to `≥ 0` (`math.Max(…, 0)` over exact
integral floats). -/
def calculateCropClamped (inWidth inHeight outWidth outHeight : Int)
    (gravity : Gravity) : Int × Int :=
  let lt := calculateCrop inWidth inHeight outWidth outHeight gravity
  (max lt.1 0, max lt.2 0)

/-- resizer.go `calculateShrink`.  `vipsWindowSize` is a native lookup on
the interpolator name, so the window size is taken as a parameter.  The
final Go `int(math.Max(shrink, 1.0))` of the integral float equals the
integer `max … 1`. -/
def calculateShrink (windowSize : ℚ) (factor : ℚ) : Int :=
  if 2 ≤ factor ∧ 3 < windowSize then max ⌊factor * 3 / windowSize⌋ 1
  else max ⌊factor⌋ 1

/-- resizer.go `calculateResidual`. -/
def calculateResidual (factor : ℚ) (shrink : Int) : ℚ :=
  (shrink : ℚ) / factor

/-- resizer.go `normalizeOperation`, first block (lines 198-200): a bare
width/height request with no mode flag and no rotation is promoted to a
forced resize. -/
def normalizeForce (o : Options) : Options :=
  if o.Force = false ∧ o.Crop = false ∧ o.Embed = false ∧ o.Enlarge = false ∧
      o.Rotate = 0 ∧ (0 < o.Width ∨ 0 < o.Height) then {o with Force := true}
  else o

/-- resizer.go `normalizeOperation`, MaxWidth block (lines 202-210). -/
def normalizeMaxWidth (o : Options) (inWidth : Int) : Options :=
  if 0 < o.MaxWidth ∧ o.MaxWidth < inWidth then
    (if 0 < o.Width then
      (if o.MaxWidth < o.Width then {o with Width := o.MaxWidth} else o)
     else {o with Width := o.MaxWidth})
  else o

/-- resizer.go `normalizeOperation`, MaxHeight block (lines 212-220). -/
def normalizeMaxHeight (o : Options) (inHeight : Int) : Options :=
  if 0 < o.MaxHeight ∧ o.MaxHeight < inHeight then
    (if 0 < o.Height then
      (if o.MaxHeight < o.Height then {o with Height := o.MaxHeight} else o)
     else {o with Height := o.MaxHeight})
  else o

/-- resizer.go `normalizeOperation`, MinWidth block (lines 222-230). -/
def normalizeMinWidth (o : Options) (inWidth : Int) : Options :=
  if 0 < o.MinWidth ∧ inWidth < o.MinWidth then
    (if 0 < o.Width then
      (if o.Width < o.MinWidth then {o with Width := o.MinWidth} else o)
     else {o with Width := o.MinWidth})
  else o

/-- resizer.go `normalizeOperation`, MinHeight block (lines 232-240). -/
def normalizeMinHeight (o : Options) (inHeight : Int) : Options :=
  if 0 < o.MinHeight ∧ inHeight < o.MinHeight then
    (if 0 < o.Height then
      (if o.Height < o.MinHeight then {o with Height := o.MinHeight} else o)
     else {o with Height := o.MinHeight})
  else o

/-- resizer.go `normalizeOperation` (the Go function mutates `o` in place;
here the five sequential blocks are applied in source order). -/
def normalizeOperation (o : Options) (inWidth inHeight : Int) : Options :=
  normalizeMinHeight
    (normalizeMinWidth
      (normalizeMaxHeight (normalizeMaxWidth (normalizeForce o) inWidth) inHeight)
      inWidth)
    inHeight

/-- resizer.go `imageCalculations`: returns the updated options together
with the scale factor.  The unused float divisions by a zero target
dimension (Go `+Inf`) are never read in the branch where they occur. -/
def imageCalculations (o : Options) (inWidth inHeight : Int) : Options × ℚ :=
  let xfactor : ℚ := (inWidth : ℚ) / (o.Width : ℚ)
  let yfactor : ℚ := (inHeight : ℚ) / (o.Height : ℚ)
  if 0 < o.Width ∧ 0 < o.Height then
    (o, if o.Crop then min xfactor yfactor else max xfactor yfactor)
  else if 0 < o.Width then
    (if o.Crop then ({o with Height := inHeight}, 1)
     else ({o with Height := roundFloat ((inHeight : ℚ) / xfactor)}, xfactor))
  else if 0 < o.Height then
    (if o.Crop then ({o with Width := inWidth}, 1)
     else ({o with Width := roundFloat ((inWidth : ℚ) / yfactor)}, yfactor))
  else ({o with Width := inWidth, Height := inHeight}, 1)

/-- resizer.go `shouldTransformImage`. -/
def shouldTransformImage (o : Options) (inWidth inHeight : Int) : Bool :=
  o.Force || (decide (0 < o.Width) && decide (o.Width ≠ inWidth)) ||
    (decide (0 < o.Height) && decide (o.Height ≠ inHeight)) ||
    decide (0 < o.AreaWidth) || decide (0 < o.AreaHeight) || o.Trim

/-- resizer.go `shouldApplyEffects` (note the Go precedence:
`Sigma>0 || MinAmpl>0 || Radius>0 && Y2>0 || Y3>0`). -/
def shouldApplyEffects (o : Options) : Bool :=
  decide (0 < o.GaussianBlur.Sigma) || decide (0 < o.GaussianBlur.MinAmpl) ||
    (decide (0 < o.Sharpen.Radius) && decide (0 < o.Sharpen.Y2)) ||
    decide (0 < o.Sharpen.Y3)

/-- The geometry block of resizer.go `process`, lines 64-81: operation
normalization, the image calculations, shrink and residual, and the
enlarge/force guard that turns the transform into a no-op when both input
dimensions are already strictly below the target. -/
structure GeoResult where
  o : Options
  factor : ℚ
  shrink : Int
  residual : ℚ
  deriving Repr

/-- resizer.go `process` lines 64-81 as one pure function (`windowSize` is
the native `vipsWindowSize` value for `o.Interpolator`). -/
def processGeometry (windowSize : ℚ) (o : Options) (inWidth inHeight : Int) :
    GeoResult :=
  let o := normalizeOperation o inWidth inHeight
  let p := imageCalculations o inWidth inHeight
  let o := p.1
  let factor := p.2
  let shrink := calculateShrink windowSize factor
  let residual := calculateResidual factor shrink
  if o.Enlarge = false ∧ o.Force = false ∧ inWidth < o.Width ∧ inHeight < o.Height then
    ⟨{o with Width := inWidth, Height := inHeight}, 1, 1, 0⟩
  else ⟨o, factor, shrink, residual⟩

/-- resizer.go `transformImage` lines 286-289: force mode disables the
downstream crop/embed flags just before `extractOrEmbedImage` is called. -/
def forceAdjust (o : Options) : Options :=
  if o.Force then {o with Crop := false, Embed := false} else o

/-- Which arm of the `extractOrEmbedImage` switch fires (the Go `switch`
is first-match). -/
inductive SelectorBranch
  | smart
  | crop
  | embed
  | trim
  | area
  | passThrough
  deriving DecidableEq, Repr

/-- The first-match selection of resizer.go `extractOrEmbedImage`
lines 325-358. -/
def selectorBranch (o : Options) : SelectorBranch :=
  if o.Gravity = Gravity.smart ∨ o.SmartCrop = true then SelectorBranch.smart
  else if o.Crop = true then SelectorBranch.crop
  else if o.Embed = true then SelectorBranch.embed
  else if o.Trim = true then SelectorBranch.trim
  else if o.Top ≠ 0 ∨ o.Left ≠ 0 ∨ o.AreaWidth ≠ 0 ∨ o.AreaHeight ≠ 0 then
    SelectorBranch.area
  else SelectorBranch.passThrough

/-- Byte buffers (Go `[]byte`). -/
def Buf : Type := List Nat

/-- The abstract native libvips capability surface used by the resizer.
Each operation returns its result together with an optional error, exactly
as the Go bindings do; `nilImg` stands for the Go `nil` image pointer.
`isTypeSupported`, `dims` (the `Xsize`/`Ysize` struct reads),
`exifOrientation`, `windowSize` and the two vips version numbers are the
pieces of state the translated source reads from outside itself. -/
structure NativeFns (Img : Type) where
  nilImg : Img
  isTypeSupported : ImgType → Bool
  dims : Img → Int × Int
  exifOrientation : Img → Int
  windowSize : Int → ℚ
  vipsMajor : Int
  vipsMinor : Int
  getImageBuffer : Img → Buf × Option String
  vipsRotate : Img → Int → Img × Option String
  vipsFlip : Img → Direction → Img × Option String
  vipsShrinkJpeg : Buf → Img → Int → Img × Option String
  vipsShrinkWebp : Buf → Img → Int → Img × Option String
  vipsZoom : Img → Int → Img × Option String
  vipsShrink : Img → Int → Img × Option String
  vipsReduce : Img → ℚ → ℚ → Img × Option String
  vipsAffine : Img → ℚ → ℚ → Int → Img × Option String
  vipsSmartCrop : Img → Int → Int → Img × Option String
  vipsExtract : Img → Int → Int → Int → Int → Img × Option String
  vipsEmbed : Img → Int → Int → Int → Int → Int → Color → Img × Option String
  vipsTrim : Img → Color → ℚ → (Int × Int × Int × Int) × Option String
  vipsGaussianBlur : Img → GaussianBlur → Img × Option String
  vipsSharpen : Img → Sharpen → Img × Option String
  vipsWatermark : Img → Watermark → Img × Option String
  vipsDrawWatermark : Img → WatermarkImage → Img × Option String
  vipsFlattenBackground : Img → Color → Img × Option String

section Pipeline

variable {Img : Type}

/-- resizer.go `calculateRotationAndFlip`: maps the EXIF orientation tag to
a rotation and flip when no explicit angle was requested. -/
def calculateRotationAndFlip (n : NativeFns Img) (image : Img) (angle : Int) :
    Int × Bool :=
  if 0 < angle then (0, false)
  else
    let t := n.exifOrientation image
    if t = 6 then (90, false)
    else if t = 3 then (180, false)
    else if t = 8 then (270, false)
    else if t = 2 then (0, true)
    else if t = 7 then (270, true)
    else if t = 4 then (180, true)
    else if t = 5 then (90, true)
    else (0, false)

/-- resizer.go `rotateAndFlipImage`.  Note the Go multiple-assignment
semantics: each of the rotate/flip/flop steps overwrites both the image
and the error variable, so a later step's result replaces an earlier
step's error; this is transcribed literally. -/
def rotateAndFlipImage (n : NativeFns Img) (image : Img) (o : Options) :
    Img × Bool × Option String :=
  let o :=
    if o.NoAutoRotate = false then
      let rf := calculateRotationAndFlip n image o.Rotate
      let o := if rf.2 then {o with Flip := rf.2} else o
      let o := if 0 < rf.1 ∧ o.Rotate = 0 then {o with Rotate := rf.1} else o
      o
    else o
  let st : Img × Bool × Option String := (image, false, none)
  let st := if 0 < o.Rotate then
      let r := n.vipsRotate st.1 (getAngle o.Rotate)
      (r.1, true, r.2)
    else st
  let st := if o.Flip then
      let r := n.vipsFlip st.1 Direction.vertical
      (r.1, true, r.2)
    else st
  let st := if o.Flop then
      let r := n.vipsFlip st.1 Direction.horizontal
      (r.1, true, r.2)
    else st
  st

/-- resizer.go `zoomImage`. -/
def zoomImage (n : NativeFns Img) (image : Img) (zoom : Int) :
    Img × Option String :=
  if zoom = 0 then (image, none) else n.vipsZoom image (zoom + 1)

/-- bimg `ImageTypeName` (outside the translated source): the readable
format name, used only in the shrink-on-load error message. -/
def ImageTypeName : ImgType → String
  | ImgType.unknown => "unknown"
  | ImgType.jpeg => "jpeg"
  | ImgType.webp => "webp"
  | ImgType.png => "png"
  | ImgType.tiff => "tiff"
  | ImgType.gif => "gif"

/-- resizer.go `shrinkOnLoad`: reload the input with decoder-native
shrinking, returning the reloaded image and the adjusted factor. -/
def shrinkOnLoad (n : NativeFns Img) (buf : Buf) (input : Img)
    (imageType : ImgType) (factor : ℚ) (shrink : Int) :
    Img × ℚ × Option String :=
  if imageType = ImgType.jpeg ∧ 2 ≤ shrink then
    let p : ℚ × Int :=
      if 8 ≤ shrink then (factor / 8, 8)
      else if 4 ≤ shrink then (factor / 4, 4)
      else (factor / 2, 2)
    let r := n.vipsShrinkJpeg buf input p.2
    (r.1, p.1, r.2)
  else if imageType = ImgType.webp then
    let r := n.vipsShrinkWebp buf input shrink
    (r.1, factor, r.2)
  else (n.nilImg, 0, some (ImageTypeName imageType ++ " doesn't support shrink on load"))

/-- resizer.go `shrinkImage`: integral shrink, then recompute the residual
from the target versus the shrunk dimensions. -/
def shrinkImage (n : NativeFns Img) (image : Img) (o : Options)
    (residual : ℚ) (shrink : Int) : Img × ℚ × Option String :=
  match n.vipsShrink image shrink with
  | (_, some e) => (n.nilImg, 0, some e)
  | (image, none) =>
    let d := n.dims image
    let residualx : ℚ := (o.Width : ℚ) / (d.1 : ℚ)
    let residualy : ℚ := (o.Height : ℚ) / (d.2 : ℚ)
    let residual := if o.Crop then max residualx residualy else min residualx residualy
    (image, residual, none)

/-- resizer.go `extractOrEmbedImage` lines 360-364: a native error returns
the incoming image with the error, success returns the produced image. -/
def finishExtract (image : Img) (r : Img × Option String) : Img × Option String :=
  match r.2 with
  | some e => (image, some e)
  | none => (r.1, none)

/-- resizer.go `extractOrEmbedImage`.  The `trim` arm transcribes the Go
variable shadowing faithfully: the `err` assigned from `vipsTrim` and
`vipsExtract` inside that arm shadows the function-level `err`, so those
errors are dropped and the arm always reports success.  The `area` arm's
parameter check returns `nil` plus a fresh error directly, bypassing the
common tail. -/
def extractOrEmbedImage (n : NativeFns Img) (image : Img) (o : Options) :
    Img × Option String :=
  let inWidth := (n.dims image).1
  let inHeight := (n.dims image).2
  match selectorBranch o with
  | SelectorBranch.smart =>
    finishExtract image (n.vipsSmartCrop image o.Width o.Height)
  | SelectorBranch.crop =>
    let width := min inWidth o.Width
    let height := min inHeight o.Height
    let lt := calculateCropClamped inWidth inHeight o.Width o.Height o.Gravity
    finishExtract image (n.vipsExtract image lt.1 lt.2 width height)
  | SelectorBranch.embed =>
    let left := (o.Width - inWidth).tdiv 2
    let top := (o.Height - inHeight).tdiv 2
    finishExtract image
      (n.vipsEmbed image left top o.Width o.Height o.Extend o.Background)
  | SelectorBranch.trim =>
    let tmpImage :=
      match n.vipsTrim image o.Background o.Threshold with
      | ((left, top, width, height), none) =>
        (n.vipsExtract image left top width height).1
      | (_, some _) => image
    finishExtract image (tmpImage, none)
  | SelectorBranch.area =>
    let areaWidth := if o.AreaWidth = 0 then o.Width else o.AreaWidth
    let areaHeight := if o.AreaHeight = 0 then o.Height else o.AreaHeight
    if areaWidth = 0 ∨ areaHeight = 0 then
      (n.nilImg, some "Extract area width/height params are required")
    else
      finishExtract image (n.vipsExtract image o.Left o.Top areaWidth areaHeight)
  | SelectorBranch.passThrough => finishExtract image (image, none)

/-- resizer.go `transformImage`: integral shrink, fine scale (reduce or
affine), then the spatial operation selector on the force-adjusted
options. -/
def transformImage (n : NativeFns Img) (image : Img) (o : Options)
    (shrink : Int) (residual : ℚ) : Img × Option String :=
  let s1 : (Img × ℚ) × Option String :=
    if 1 < shrink then
      match shrinkImage n image o residual shrink with
      | (tmp, res, none) => ((tmp, res), none)
      | (_, _, some e) => ((image, residual), some e)
    else ((image, residual), none)
  match s1 with
  | (_, some e) => (image, some e)
  | ((image, residual), none) =>
    let d := n.dims image
    let residualx := if o.Force then (o.Width : ℚ) / (d.1 : ℚ) else residual
    let residualy := if o.Force then (o.Height : ℚ) / (d.2 : ℚ) else residual
    let s2 : Img × Option String :=
      if o.Force = true ∨ residual ≠ 0 then
        if residualx < 1 ∧ residualy < 1 then
          n.vipsReduce image (1 / residualx) (1 / residualy)
        else n.vipsAffine image residualx residualy o.Interpolator
      else (image, none)
    match s2 with
    | (_, some e) => (image, some e)
    | (image, none) =>
      let o := forceAdjust o
      match extractOrEmbedImage n image o with
      | (imageOut, none) => (imageOut, none)
      | (_, some e) => (image, some e)

/-- resizer.go `applyEffects` (blur then sharpen; a native failure returns
`nil` with the error). -/
def applyEffects (n : NativeFns Img) (image : Img) (o : Options) :
    Img × Option String :=
  let b : Img × Option String :=
    if 0 < o.GaussianBlur.Sigma ∨ 0 < o.GaussianBlur.MinAmpl then
      n.vipsGaussianBlur image o.GaussianBlur
    else (image, none)
  match b with
  | (_, some e) => (n.nilImg, some e)
  | (image, none) =>
    if (0 < o.Sharpen.Radius ∧ 0 < o.Sharpen.Y2) ∨ 0 < o.Sharpen.Y3 then
      match n.vipsSharpen image o.Sharpen with
      | (_, some e) => (n.nilImg, some e)
      | (image, none) => (image, none)
    else (image, none)

/-- bimg `WatermarkFont` (outside the translated source): the default
watermark font constant. -/
def WatermarkFont : String := "sans bold 12"

/-- resizer.go `watermarkImageWithText`: fill the watermark defaults and
draw; with no text the image passes through. -/
def watermarkImageWithText (n : NativeFns Img) (image : Img) (w : Watermark) :
    Img × Option String :=
  if w.Text = "" then (image, none)
  else
    let w := if w.Font = "" then {w with Font := WatermarkFont} else w
    let w := if w.Width = 0 then {w with Width := ((n.dims image).1).tdiv 6} else w
    let w := if w.DPI = 0 then {w with DPI := 150} else w
    let w := if w.Margin = 0 then {w with Margin := w.Width} else w
    let w := if w.Opacity = 0 then {w with Opacity := 1/4}
      else if 1 < w.Opacity then {w with Opacity := 1} else w
    match n.vipsWatermark image w with
    | (tmp, none) => (tmp, none)
    | (_, some e) => (image, some e)

/-- resizer.go `watermarkImageWithAnotherImage`: overlay watermark with an
opacity default; with an empty buffer the image passes through. -/
def watermarkImageWithAnotherImage (n : NativeFns Img) (image : Img)
    (w : WatermarkImage) : Img × Option String :=
  if w.Buf.length = 0 then (image, none)
  else
    let w := if w.Opacity = 0 then {w with Opacity := 1} else w
    match n.vipsDrawWatermark image w with
    | (image, none) => (image, none)
    | (_, some e) => (n.nilImg, some e)

/-- resizer.go `imageFlatten`: only PNG images with a non-black background
are flattened. -/
def imageFlatten (n : NativeFns Img) (image : Img) (imageType : ImgType)
    (o : Options) : Img × Option String :=
  if imageType ≠ ImgType.png ∨ o.Background = ColorBlack then (image, none)
  else n.vipsFlattenBackground image o.Background

/-- bimg `Quality` (outside the translated source): the default quality
constant used by `applyDefaults`. -/
def Quality : Int := 80

/-- bimg `InterpretationSRGB` (outside the translated source): the sRGB
colour interpretation enum value. -/
def InterpretationSRGB : Int := 22

/-- resizer.go `applyDefaults`: fill the zero-valued output options. -/
def applyDefaults (o : Options) (imageType : ImgType) : Options :=
  let o := if o.Quality = 0 then {o with Quality := Quality} else o
  let o := if o.Compression = 0 then {o with Compression := 6} else o
  let o := if o.typ = ImgType.unknown then {o with typ := imageType} else o
  let o := if o.Interpretation = 0 then {o with Interpretation := InterpretationSRGB} else o
  o

/-- The checkpoints of resizer.go `process` at which an error is tested and
the pipeline aborted, in source order.  `geometry` is the pure block of
lines 60-81 (it cannot fail). -/
inductive StageId
  | typeCheck
  | rotateFlip
  | bufferRefresh
  | geometry
  | shrinkLoad
  | zoom
  | transform
  | effects
  | watermarkText
  | watermarkImg
  | flatten
  deriving DecidableEq, Repr

/-- The mutable locals of resizer.go `process` threaded from stage to
stage: the current image handle, the caller's buffer (written through the
`buf` pointer), the `rotated` flag, the options (mutated by the geometry
block), the input dimensions read at lines 60-61 and the computed
factor/shrink/residual. -/
structure PState (Img : Type) where
  image : Img
  buf : Buf
  rotated : Bool
  o : Options
  inW : Int
  inH : Int
  factor : ℚ
  shrink : Int
  residual : ℚ

/-- The state at entry of resizer.go `process` (the geometry fields hold
their Go zero values until the `geometry` stage assigns them). -/
def initState {Img : Type} (o : Options) (buf : Buf) (image : Img) : PState Img :=
  ⟨image, buf, false, o, 0, 0, 0, 0, 0⟩

/-- One checkpoint step of resizer.go `process`.  Each arm transcribes the
corresponding chunk of the Go function, including its guard; on an error
the returned state is exactly what the Go early `return` exposes (the
image as of the last successful stage, and the buffer as already written
through the pointer). -/
def stageFn (n : NativeFns Img) (imageType : ImgType) :
    StageId → PState Img → PState Img × Option String
  | StageId.typeCheck, s =>
    if n.isTypeSupported s.o.typ then (s, none)
    else (s, some "Unsupported image output type")
  | StageId.rotateFlip, s =>
    match rotateAndFlipImage n s.image s.o with
    | (_, _, some e) => (s, some e)
    | (image1, rotated, none) => ({s with image := image1, rotated := rotated}, none)
  | StageId.bufferRefresh, s =>
    if s.rotated = true ∧ imageType = ImgType.jpeg ∧ s.o.NoAutoRotate = false then
      match n.getImageBuffer s.image with
      | (b, some e) => ({s with buf := b}, some e)
      | (b, none) => ({s with buf := b}, none)
    else (s, none)
  | StageId.geometry, s =>
    let inWidth := (n.dims s.image).1
    let inHeight := (n.dims s.image).2
    let g := processGeometry (n.windowSize s.o.Interpolator) s.o inWidth inHeight
    ({ s with
        o := g.o
        inW := inWidth
        inH := inHeight
        factor := g.factor
        shrink := g.shrink
        residual := g.residual }, none)
  | StageId.shrinkLoad, s =>
    let supportsShrinkOnLoad :=
      (imageType = ImgType.webp ∧ 8 ≤ n.vipsMajor ∧ 3 ≤ n.vipsMinor) ∨
        imageType = ImgType.jpeg
    if supportsShrinkOnLoad ∧ 2 ≤ s.shrink then
      match shrinkOnLoad n s.buf s.image imageType s.factor s.shrink with
      | (_, _, some e) => (s, some e)
      | (tmpImage, f, none) =>
        let f := max f 1
        ({ s with
            image := tmpImage
            factor := f
            shrink := ⌊f⌋
            residual := (⌊f⌋ : ℚ) / f }, none)
    else (s, none)
  | StageId.zoom, s =>
    match zoomImage n s.image s.o.Zoom with
    | (_, some e) => (s, some e)
    | (image2, none) => ({s with image := image2}, none)
  | StageId.transform, s =>
    if shouldTransformImage s.o s.inW s.inH then
      match transformImage n s.image s.o s.shrink s.residual with
      | (_, some e) => (s, some e)
      | (tmpImage, none) => ({s with image := tmpImage}, none)
    else (s, none)
  | StageId.effects, s =>
    if shouldApplyEffects s.o then
      match applyEffects n s.image s.o with
      | (_, some e) => (s, some e)
      | (tmpImage, none) => ({s with image := tmpImage}, none)
    else (s, none)
  | StageId.watermarkText, s =>
    match watermarkImageWithText n s.image s.o.Watermark with
    | (_, some e) => (s, some e)
    | (image3, none) => ({s with image := image3}, none)
  | StageId.watermarkImg, s =>
    match watermarkImageWithAnotherImage n s.image s.o.WatermarkImage with
    | (_, some e) => (s, some e)
    | (image4, none) => ({s with image := image4}, none)
  | StageId.flatten, s =>
    match imageFlatten n s.image imageType s.o with
    | (_, some e) => (s, some e)
    | (image5, none) => ({s with image := image5}, none)

/-- The checkpoints of resizer.go `process` in their source order. -/
def stageOrder : List StageId :=
  [StageId.typeCheck, StageId.rotateFlip, StageId.bufferRefresh, StageId.geometry,
    StageId.shrinkLoad, StageId.zoom, StageId.transform, StageId.effects,
    StageId.watermarkText, StageId.watermarkImg, StageId.flatten]

/-- Run a sequence of stages with the fail-fast early-return discipline of
resizer.go `process`, additionally recording which stages were reached. -/
def runStages (n : NativeFns Img) (imageType : ImgType) :
    List StageId → PState Img → PState Img × Option String × List StageId
  | [], s => (s, none, [])
  | sid :: rest, s =>
    match stageFn n imageType sid s with
    | (s2, none) =>
      let r := runStages n imageType rest s2
      (r.1, r.2.1, sid :: r.2.2)
    | (s2, some e) => (s2, some e, [sid])

/-- resizer.go `process`, instrumented with the list of reached stages. -/
def processTraced (n : NativeFns Img) (imageType : ImgType) (o : Options)
    (buf : Buf) (image0 : Img) : PState Img × Option String × List StageId :=
  runStages n imageType stageOrder (initState o buf image0)

/-- resizer.go `process`: the resulting image, the buffer as written
through the `buf` pointer, and the error of the first failing stage (the
image component is the handle as of the last successful stage). -/
def process (n : NativeFns Img) (imageType : ImgType) (o : Options)
    (buf : Buf) (image0 : Img) : Img × Buf × Option String :=
  let r := processTraced n imageType o buf image0
  (r.1.image, r.1.buf, r.2.1)

/-- The `VipsImage` wrapper (second source file): a stored image handle,
its source buffer and its detected type. -/
structure VipsImage (Img : Type) where
  image : Img
  srcBuf : Buf
  imageType : ImgType

/-- `VipsImage.Process` from the second source file: apply the defaults,
run `process` against the stored handle (which writes the source buffer
through the pointer), and replace the stored handle only on success. -/
def VipsImage.Process (n : NativeFns Img) (i : VipsImage Img) (o : Options) :
    VipsImage Img × Option String :=
  let o := applyDefaults o i.imageType
  match process n i.imageType o i.srcBuf i.image with
  | (_, buf2, some e) => ({i with srcBuf := buf2}, some e)
  | (image2, buf2, none) => ({i with image := image2, srcBuf := buf2}, none)

end Pipeline

/-- A concrete all-succeeding instantiation of the native surface over
`Img := Nat` (each operation returns a fresh handle), used to evaluate the
pipeline at concrete inputs. -/
def okNatives : NativeFns Nat where
  nilImg := 0
  isTypeSupported := fun _ => true
  dims := fun _ => (100, 100)
  exifOrientation := fun _ => 0
  windowSize := fun _ => 2
  vipsMajor := 8
  vipsMinor := 10
  getImageBuffer := fun _ => ([], none)
  vipsRotate := fun i _ => (i + 1, none)
  vipsFlip := fun i _ => (i + 1, none)
  vipsShrinkJpeg := fun _ i _ => (i + 1, none)
  vipsShrinkWebp := fun _ i _ => (i + 1, none)
  vipsZoom := fun i _ => (i + 1, none)
  vipsShrink := fun i _ => (i + 1, none)
  vipsReduce := fun i _ _ => (i + 1, none)
  vipsAffine := fun i _ _ _ => (i + 1, none)
  vipsSmartCrop := fun i _ _ => (i + 1, none)
  vipsExtract := fun i _ _ _ _ => (i + 1, none)
  vipsEmbed := fun i _ _ _ _ _ _ => (i + 1, none)
  vipsTrim := fun _ _ _ => ((0, 0, 50, 50), none)
  vipsGaussianBlur := fun i _ => (i + 1, none)
  vipsSharpen := fun i _ => (i + 1, none)
  vipsWatermark := fun i _ => (i + 1, none)
  vipsDrawWatermark := fun i _ => (i + 1, none)
  vipsFlattenBackground := fun i _ => (i + 1, none)

/-- A recording instantiation of the native surface over
`Img := List String`: every operation succeeds and prepends its name to
the handle, so the handle carries the trace of native calls. -/
def recNatives : NativeFns (List String) where
  nilImg := []
  isTypeSupported := fun _ => true
  dims := fun _ => (100, 100)
  exifOrientation := fun _ => 0
  windowSize := fun _ => 2
  vipsMajor := 8
  vipsMinor := 10
  getImageBuffer := fun _ => ([], none)
  vipsRotate := fun i _ => ("rotate" :: i, none)
  vipsFlip := fun i _ => ("flip" :: i, none)
  vipsShrinkJpeg := fun _ i _ => ("shrinkJpeg" :: i, none)
  vipsShrinkWebp := fun _ i _ => ("shrinkWebp" :: i, none)
  vipsZoom := fun i _ => ("zoom" :: i, none)
  vipsShrink := fun i _ => ("shrink" :: i, none)
  vipsReduce := fun i _ _ => ("reduce" :: i, none)
  vipsAffine := fun i _ _ _ => ("affine" :: i, none)
  vipsSmartCrop := fun i _ _ => ("smartcrop" :: i, none)
  vipsExtract := fun i _ _ _ _ => ("extract" :: i, none)
  vipsEmbed := fun i _ _ _ _ _ _ => ("embed" :: i, none)
  vipsTrim := fun _ _ _ => ((0, 0, 50, 50), none)
  vipsGaussianBlur := fun i _ => ("blur" :: i, none)
  vipsSharpen := fun i _ => ("sharpen" :: i, none)
  vipsWatermark := fun i _ => ("watermark" :: i, none)
  vipsDrawWatermark := fun i _ => ("drawWatermark" :: i, none)
  vipsFlattenBackground := fun i _ => ("flattenBackground" :: i, none)

section Proofs

variable {Img : Type}

/-- If the whole prefix `L1` succeeds (ending in state `s2`), running
`L1 ++ L2` runs `L1` and continues with `L2` from `s2`. -/
theorem runStages_ok_append (n : NativeFns Img) (t : ImgType)
    (L1 L2 : List StageId) (s s2 : PState Img)
    (h : runStages n t L1 s = (s2, none, L1)) :
    runStages n t (L1 ++ L2) s =
      ((runStages n t L2 s2).1, (runStages n t L2 s2).2.1,
        L1 ++ (runStages n t L2 s2).2.2) := by
  induction L1 generalizing s with
  | nil =>
    simp only [runStages, Prod.mk.injEq] at h
    obtain ⟨rfl, -⟩ := h
    simp
  | cons sid rest ih =>
    rcases hst : stageFn n t sid s with ⟨s3, e⟩
    cases e with
    | some e => simp [runStages, hst] at h
    | none =>
      rcases hrr : runStages n t rest s3 with ⟨a, b, c⟩
      have h2 : a = s2 ∧ b = none ∧ c = rest := by
        simp only [runStages, hst, hrr, Prod.mk.injEq, List.cons.injEq,
          true_and, and_true] at h
        exact h
      obtain ⟨rfl, rfl, rfl⟩ := h2
      have := ih s3 hrr
      simp [runStages, hst, this]

/-- A failing checkpoint of `process` never replaces the image handle: the
state it exposes still carries the handle of the last successful stage. -/
theorem stageFn_err_image (n : NativeFns Img) (t : ImgType) (sid : StageId)
    (s s2 : PState Img) (e : String) (h : stageFn n t sid s = (s2, some e)) :
    s2.image = s.image := by
  cases sid <;> simp only [stageFn] at h <;> (repeat' split at h) <;>
    (rw [Prod.mk.injEq] at h) <;> obtain ⟨h1, h2⟩ := h <;>
    (first
      | (subst h1; rfl)
      | (cases h2))

/-- C2: for every options value and every failing stage, `process`
short-circuits: a stage sequence decomposed as `L1 ++ sid :: L2` where all
of `L1` succeeds and `sid` fails with error `e` makes the pipeline stop at
`sid` (no stage of `L2` is reached), return `e` verbatim, and return the
image handle as of the last successful stage. -/
theorem c2_pipeline_short_circuit (n : NativeFns Img) (t : ImgType)
    (o : Options) (buf : Buf) (image0 : Img) (L1 L2 : List StageId)
    (sid : StageId) (s : PState Img) (e : String)
    (horder : stageOrder = L1 ++ sid :: L2)
    (hok : runStages n t L1 (initState o buf image0) = (s, none, L1))
    (hfail : stageFn n t sid s = ((stageFn n t sid s).1, some e)) :
    processTraced n t o buf image0 =
      ((stageFn n t sid s).1, some e, L1 ++ [sid])
    ∧ ((stageFn n t sid s).1).image = s.image
    ∧ process n t o buf image0 =
        (s.image, ((stageFn n t sid s).1).buf, some e) := by
  have himg : ((stageFn n t sid s).1).image = s.image :=
    stageFn_err_image n t sid s _ e hfail
  have htr : processTraced n t o buf image0 =
      ((stageFn n t sid s).1, some e, L1 ++ [sid]) := by
    rcases hs : stageFn n t sid s with ⟨s3, e2⟩
    have he2 : e2 = some e := by
      rw [hs] at hfail
      exact congrArg Prod.snd hfail
    subst he2
    unfold processTraced
    rw [horder, runStages_ok_append n t L1 (sid :: L2) _ s hok]
    simp [runStages, hs]
  refine ⟨htr, himg, ?_⟩
  unfold process
  rw [htr, ← himg]

/-- `okNatives` with a failing rotate operation. -/
def rotateFailNatives : NativeFns Nat :=
  { okNatives with vipsRotate := fun _ _ => (0, some "rotate failed") }

/-- Options requesting an explicit rotation (so the rotate native runs). -/
def c2wOpts : Options := {zeroOptions with Rotate := 90}

/-- The pipeline state after the successful `typeCheck` prefix. -/
def c2wState : PState Nat :=
  (runStages rotateFailNatives ImgType.png [StageId.typeCheck]
    (initState c2wOpts [] 7)).1

/-- Witness for C2: with a failing rotate native and an explicit rotation,
the pipeline stops at the rotate/flip stage, surfaces its error and keeps
the input handle. -/
theorem c2_pipeline_short_circuit_witness :
    processTraced rotateFailNatives ImgType.png c2wOpts [] 7 =
      ((stageFn rotateFailNatives ImgType.png StageId.rotateFlip c2wState).1,
        some "rotate failed", [StageId.typeCheck] ++ [StageId.rotateFlip])
    ∧ ((stageFn rotateFailNatives ImgType.png StageId.rotateFlip c2wState).1).image =
        c2wState.image
    ∧ process rotateFailNatives ImgType.png c2wOpts [] 7 =
        (c2wState.image,
          ((stageFn rotateFailNatives ImgType.png StageId.rotateFlip c2wState).1).buf,
          some "rotate failed") :=
  c2_pipeline_short_circuit rotateFailNatives ImgType.png c2wOpts [] 7
    [StageId.typeCheck]
    [StageId.bufferRefresh, StageId.geometry, StageId.shrinkLoad, StageId.zoom,
      StageId.transform, StageId.effects, StageId.watermarkText,
      StageId.watermarkImg, StageId.flatten]
    StageId.rotateFlip c2wState "rotate failed" rfl rfl rfl

/-- C7: `getAngle` is total over non-negative angles, lands in
{0, 90, 180, 270}, is idempotent there, and takes the claimed concrete
values. -/
theorem c7_getAngle_total_idempotent (x : Int) (hx : 0 ≤ x) :
    ((getAngle x = 0 ∨ getAngle x = 90 ∨ getAngle x = 180 ∨ getAngle x = 270) ∧
      getAngle (getAngle x) = getAngle x) ∧
    getAngle 45 = 0 ∧ getAngle 90 = 90 ∧ getAngle 100 = 90 ∧
    getAngle 370 = 270 ∧ getAngle 400 = 270 := by
  have hform : getAngle x = min (x - x.tmod 90) 270 := by
    simp only [getAngle]
    split_ifs with h
    · rfl
    · rw [not_not] at h
      rw [h, sub_zero]
  have hmem : getAngle x = 0 ∨ getAngle x = 90 ∨ getAngle x = 180 ∨
      getAngle x = 270 := by
    rw [hform, Int.tmod_eq_emod hx (by norm_num)]
    rcases le_total (x - x % 90) 270 with h1 | h1
    · rw [min_eq_left h1]
      omega
    · rw [min_eq_right h1]
      omega
  have hid : getAngle (getAngle x) = getAngle x := by
    rcases hmem with h | h | h | h <;> rw [h] <;> decide
  exact ⟨⟨hmem, hid⟩, by decide, by decide, by decide, by decide, by decide⟩

/-- Witness for C7 at the concrete angle 45. -/
theorem c7_getAngle_total_idempotent_witness :
    (0 : Int) ≤ 45 ∧
    (((getAngle 45 = 0 ∨ getAngle 45 = 90 ∨ getAngle 45 = 180 ∨
        getAngle 45 = 270) ∧ getAngle (getAngle 45) = getAngle 45) ∧
      getAngle 45 = 0 ∧ getAngle 90 = 90 ∧ getAngle 100 = 90 ∧
      getAngle 370 = 270 ∧ getAngle 400 = 270) :=
  ⟨by decide, c7_getAngle_total_idempotent 45 (by decide)⟩

/-- C6 counterexample: for gravity Center with inW=100 and outW=30 the
left offset is 35 (truncating division of 71 by 2), not 36 as the claim
states. -/
theorem c6_calculateCrop_counterexample :
    calculateCrop 100 100 30 30 Gravity.centre = (35, 35) ∧
    ¬(calculateCrop 100 100 30 30 Gravity.centre).1 = 36 := by
  decide

/-- C6 (amended): the per-gravity offset formulas of `calculateCrop` with
truncating division, non-negativity of the clamped offsets used by the
crop branch, and the corrected concrete value 35 for Center at
inW=100, outW=30. -/
theorem c6_calculateCrop_amended (inW inH outW outH : Int) (g : Gravity) :
    calculateCrop inW inH outW outH Gravity.north =
      ((inW - outW + 1).tdiv 2, 0) ∧
    calculateCrop inW inH outW outH Gravity.east =
      (inW - outW, (inH - outH + 1).tdiv 2) ∧
    calculateCrop inW inH outW outH Gravity.south =
      ((inW - outW + 1).tdiv 2, inH - outH) ∧
    calculateCrop inW inH outW outH Gravity.west =
      (0, (inH - outH + 1).tdiv 2) ∧
    calculateCrop inW inH outW outH Gravity.centre =
      ((inW - outW + 1).tdiv 2, (inH - outH + 1).tdiv 2) ∧
    0 ≤ (calculateCropClamped inW inH outW outH g).1 ∧
    0 ≤ (calculateCropClamped inW inH outW outH g).2 ∧
    calculateCrop 100 100 30 30 Gravity.centre = (35, 35) :=
  ⟨rfl, rfl, rfl, rfl, rfl, le_max_right _ 0, le_max_right _ 0, by decide⟩

/-- Options with Crop and Embed both set and smart gravity. -/
def c4CounterOpts : Options :=
  {zeroOptions with Crop := true, Embed := true, Gravity := Gravity.smart}

/-- C4 counterexample: an options value with both Crop and Embed set on
which the crop branch is not taken (smart gravity preempts it). -/
theorem c4_selector_counterexample :
    c4CounterOpts.Crop = true ∧ c4CounterOpts.Embed = true ∧
    ¬selectorBranch c4CounterOpts = SelectorBranch.crop ∧
    selectorBranch c4CounterOpts = SelectorBranch.smart := by
  decide

/-- C4 (amended): the `extractOrEmbedImage` switch resolves flag
combinations by the fixed first-match priority order smart before crop
before embed before trim before area-extract before pass-through; in
particular Crop and Embed both set resolve to the crop branch whenever no
smart crop is requested. -/
theorem c4_selector_priority (o : Options) :
    ((o.Gravity = Gravity.smart ∨ o.SmartCrop = true) →
      selectorBranch o = SelectorBranch.smart) ∧
    (¬o.Gravity = Gravity.smart → o.SmartCrop = false → o.Crop = true →
      selectorBranch o = SelectorBranch.crop) ∧
    (¬o.Gravity = Gravity.smart → o.SmartCrop = false → o.Crop = false →
      o.Embed = true → selectorBranch o = SelectorBranch.embed) ∧
    (¬o.Gravity = Gravity.smart → o.SmartCrop = false → o.Crop = false →
      o.Embed = false → o.Trim = true →
      selectorBranch o = SelectorBranch.trim) ∧
    (¬o.Gravity = Gravity.smart → o.SmartCrop = false → o.Crop = false →
      o.Embed = false → o.Trim = false →
      (o.Top ≠ 0 ∨ o.Left ≠ 0 ∨ o.AreaWidth ≠ 0 ∨ o.AreaHeight ≠ 0) →
      selectorBranch o = SelectorBranch.area) ∧
    (¬o.Gravity = Gravity.smart → o.SmartCrop = false → o.Crop = false →
      o.Embed = false → o.Trim = false → o.Top = 0 → o.Left = 0 →
      o.AreaWidth = 0 → o.AreaHeight = 0 →
      selectorBranch o = SelectorBranch.passThrough) ∧
    (o.Crop = true → o.Embed = true → ¬o.Gravity = Gravity.smart →
      o.SmartCrop = false →
      selectorBranch o = SelectorBranch.crop ∧
        ¬selectorBranch o = SelectorBranch.embed) := by
  unfold selectorBranch
  refine ⟨?_, ?_, ?_, ?_, ?_, ?_, ?_⟩ <;>
    (intros; split_ifs <;> simp_all)

/-- Witness for C4 (amended) at a concrete options value with Crop and
Embed both set and no smart crop. -/
theorem c4_selector_priority_witness :
    selectorBranch {zeroOptions with Crop := true, Embed := true} =
      SelectorBranch.crop ∧
    ¬selectorBranch {zeroOptions with Crop := true, Embed := true} =
      SelectorBranch.embed :=
  (c4_selector_priority {zeroOptions with Crop := true, Embed := true}).2.2.2.2.2.2
    rfl rfl (by decide) rfl

/-- C5: with Force set, the options passed on to `extractOrEmbedImage`
from `transformImage` (its lines 286-291, transcribed as `forceAdjust`)
have Crop and Embed disabled, so neither the crop nor the embed branch can
be selected. -/
theorem c5_force_disables_crop_embed (o : Options) (h : o.Force = true) :
    (forceAdjust o).Crop = false ∧ (forceAdjust o).Embed = false ∧
    ¬selectorBranch (forceAdjust o) = SelectorBranch.crop ∧
    ¬selectorBranch (forceAdjust o) = SelectorBranch.embed := by
  unfold forceAdjust
  rw [if_pos h]
  refine ⟨rfl, rfl, ?_, ?_⟩ <;>
    (unfold selectorBranch; split_ifs <;> simp_all)

/-- Witness for C5 at a concrete options value with Force, Crop and Embed
all set. -/
theorem c5_force_disables_crop_embed_witness :
    (forceAdjust {zeroOptions with Force := true, Crop := true, Embed := true}).Crop = false ∧
    (forceAdjust {zeroOptions with Force := true, Crop := true, Embed := true}).Embed = false ∧
    ¬selectorBranch (forceAdjust {zeroOptions with Force := true, Crop := true, Embed := true}) =
      SelectorBranch.crop ∧
    ¬selectorBranch (forceAdjust {zeroOptions with Force := true, Crop := true, Embed := true}) =
      SelectorBranch.embed :=
  c5_force_disables_crop_embed
    {zeroOptions with Force := true, Crop := true, Embed := true} rfl

/-- C9: the effects stage guard holds exactly when blur or sharpen is
requested, with the Go precedence `Sigma>0 || MinAmpl>0 || Radius>0 &&
Y2>0 || Y3>0`; inside `applyEffects` the sharpen native runs exactly when
`(Radius>0 and Y2>0) or Y3>0`, so Y3 alone triggers sharpening (shown on
the recording instantiation of the native surface). -/
theorem c9_effects_condition (o : Options) :
    (shouldApplyEffects o = true ↔
      (0 < o.GaussianBlur.Sigma ∨ 0 < o.GaussianBlur.MinAmpl ∨
        (0 < o.Sharpen.Radius ∧ 0 < o.Sharpen.Y2) ∨ 0 < o.Sharpen.Y3)) ∧
    ("sharpen" ∈ (applyEffects recNatives [] o).1 ↔
      ((0 < o.Sharpen.Radius ∧ 0 < o.Sharpen.Y2) ∨ 0 < o.Sharpen.Y3)) ∧
    (0 < o.Sharpen.Y3 → o.Sharpen.Radius = 0 → o.Sharpen.Y2 = 0 →
      "sharpen" ∈ (applyEffects recNatives [] o).1) := by
  have hsh : "sharpen" ∈ (applyEffects recNatives [] o).1 ↔
      ((0 < o.Sharpen.Radius ∧ 0 < o.Sharpen.Y2) ∨ 0 < o.Sharpen.Y3) := by
    unfold applyEffects
    by_cases hb : 0 < o.GaussianBlur.Sigma ∨ 0 < o.GaussianBlur.MinAmpl <;>
      by_cases hs : (0 < o.Sharpen.Radius ∧ 0 < o.Sharpen.Y2) ∨ 0 < o.Sharpen.Y3 <;>
      simp [recNatives, hb, hs]
  refine ⟨?_, hsh, fun h1 _ _ => hsh.mpr (Or.inr h1)⟩
  unfold shouldApplyEffects
  simp only [Bool.or_eq_true, Bool.and_eq_true, decide_eq_true_eq]
  tauto

/-- Witness for C9 at an options value with only Y3 positive. -/
theorem c9_effects_condition_witness :
    (shouldApplyEffects {zeroOptions with Sharpen := ⟨0, 0, 0, 2⟩} = true ↔
      (0 < ({zeroOptions with Sharpen := ⟨0, 0, 0, 2⟩} : Options).GaussianBlur.Sigma ∨
        0 < ({zeroOptions with Sharpen := ⟨0, 0, 0, 2⟩} : Options).GaussianBlur.MinAmpl ∨
        (0 < ({zeroOptions with Sharpen := ⟨0, 0, 0, 2⟩} : Options).Sharpen.Radius ∧
          0 < ({zeroOptions with Sharpen := ⟨0, 0, 0, 2⟩} : Options).Sharpen.Y2) ∨
        0 < ({zeroOptions with Sharpen := ⟨0, 0, 0, 2⟩} : Options).Sharpen.Y3)) ∧
    ("sharpen" ∈ (applyEffects recNatives [] {zeroOptions with Sharpen := ⟨0, 0, 0, 2⟩}).1 ↔
      ((0 < ({zeroOptions with Sharpen := ⟨0, 0, 0, 2⟩} : Options).Sharpen.Radius ∧
          0 < ({zeroOptions with Sharpen := ⟨0, 0, 0, 2⟩} : Options).Sharpen.Y2) ∨
        0 < ({zeroOptions with Sharpen := ⟨0, 0, 0, 2⟩} : Options).Sharpen.Y3)) ∧
    (0 < ({zeroOptions with Sharpen := ⟨0, 0, 0, 2⟩} : Options).Sharpen.Y3 →
      ({zeroOptions with Sharpen := ⟨0, 0, 0, 2⟩} : Options).Sharpen.Radius = 0 →
      ({zeroOptions with Sharpen := ⟨0, 0, 0, 2⟩} : Options).Sharpen.Y2 = 0 →
      "sharpen" ∈ (applyEffects recNatives [] {zeroOptions with Sharpen := ⟨0, 0, 0, 2⟩}).1) :=
  c9_effects_condition {zeroOptions with Sharpen := ⟨0, 0, 0, 2⟩}

/-- Options selecting the area-extract branch with every size field zero. -/
def c3CounterOpts : Options := {zeroOptions with Left := 10}

/-- C3 counterexample: with Left set and all of AreaWidth, AreaHeight,
Width, Height zero, `extractOrEmbedImage` fails, but with a fresh error
value whose message is "Extract area width/height params are required" —
not the exported `ErrExtractAreaParamsRequired` sentinel (whose message
starts with a lowercase letter). -/
theorem c3_extract_area_counterexample :
    selectorBranch c3CounterOpts = SelectorBranch.area ∧
    c3CounterOpts.AreaWidth = 0 ∧ c3CounterOpts.AreaHeight = 0 ∧
    c3CounterOpts.Width = 0 ∧ c3CounterOpts.Height = 0 ∧
    extractOrEmbedImage okNatives 7 c3CounterOpts =
      (okNatives.nilImg, some "Extract area width/height params are required") ∧
    ¬"Extract area width/height params are required" =
      ErrExtractAreaParamsRequired := by
  decide

/-- C3 (amended): in the area-extract branch with AreaWidth and AreaHeight
zero they default to Width and Height; if Width and Height are still zero
the operation fails (with the fresh "Extract area width/height params are
required" error, not the exported sentinel), otherwise it extracts at
(Left, Top) with (Width, Height). -/
theorem c3_extract_area_amended (n : NativeFns Img) (image : Img)
    (o : Options) (hb : selectorBranch o = SelectorBranch.area)
    (haw : o.AreaWidth = 0) (hah : o.AreaHeight = 0) :
    (o.Width = 0 → o.Height = 0 →
      extractOrEmbedImage n image o =
        (n.nilImg, some "Extract area width/height params are required")) ∧
    (¬o.Width = 0 → ¬o.Height = 0 →
      extractOrEmbedImage n image o =
        finishExtract image
          (n.vipsExtract image o.Left o.Top o.Width o.Height)) := by
  unfold extractOrEmbedImage
  rw [hb]
  constructor
  · intro hw hh
    simp [haw, hah, hw, hh]
  · intro hw hh
    simp [haw, hah, hw, hh]

/-- Witness for C3 (amended): with Left set and nonzero Width/Height the
branch extracts at (Left, Top) with (Width, Height). -/
theorem c3_extract_area_amended_witness :
    extractOrEmbedImage okNatives 7 {zeroOptions with Left := 10, Width := 30, Height := 40} =
      finishExtract 7 (okNatives.vipsExtract 7 10 0 30 40) :=
  (c3_extract_area_amended okNatives 7
      {zeroOptions with Left := 10, Width := 30, Height := 40}
      (by decide) rfl rfl).2 (by decide) (by decide)

/-- C10: `VipsImage.Process` is atomic on error — when `process` fails the
stored image handle is unchanged, and it is replaced by the processed
handle exactly when `process` succeeds. -/
theorem c10_process_atomic (n : NativeFns Img) (i : VipsImage Img)
    (o : Options) :
    (∀ e, (VipsImage.Process n i o).2 = some e →
      ((VipsImage.Process n i o).1).image = i.image) ∧
    ((VipsImage.Process n i o).2 = none →
      ((VipsImage.Process n i o).1).image =
        (process n i.imageType (applyDefaults o i.imageType) i.srcBuf i.image).1) := by
  unfold VipsImage.Process
  rcases hp : process n i.imageType (applyDefaults o i.imageType) i.srcBuf i.image
    with ⟨img2, buf2, e2⟩
  cases e2 <;> simp [hp]

/-- Natives rejecting every output type, so `process` fails at its first
checkpoint. -/
def noTypeNatives : NativeFns Nat :=
  { okNatives with isTypeSupported := fun _ => false }

/-- Witness for C10: a failing `process` leaves the stored handle 7 in
place. -/
theorem c10_process_atomic_witness :
    ((VipsImage.Process noTypeNatives ⟨7, [], ImgType.png⟩ zeroOptions).1).image =
      (⟨7, [], ImgType.png⟩ : VipsImage Nat).image :=
  (c10_process_atomic noTypeNatives ⟨7, [], ImgType.png⟩ zeroOptions).1
    "Unsupported image output type" rfl

/-- The MaxWidth clamp is the identity when no MaxWidth is set. -/
theorem normalizeMaxWidth_id (o : Options) (inW : Int) (h : o.MaxWidth = 0) :
    normalizeMaxWidth o inW = o := by
  unfold normalizeMaxWidth
  simp [h]

/-- The MaxHeight clamp is the identity when no MaxHeight is set. -/
theorem normalizeMaxHeight_id (o : Options) (inH : Int) (h : o.MaxHeight = 0) :
    normalizeMaxHeight o inH = o := by
  unfold normalizeMaxHeight
  simp [h]

/-- The MinWidth clamp is the identity when no MinWidth is set. -/
theorem normalizeMinWidth_id (o : Options) (inW : Int) (h : o.MinWidth = 0) :
    normalizeMinWidth o inW = o := by
  unfold normalizeMinWidth
  simp [h]

/-- The MinHeight clamp is the identity when no MinHeight is set. -/
theorem normalizeMinHeight_id (o : Options) (inH : Int) (h : o.MinHeight = 0) :
    normalizeMinHeight o inH = o := by
  unfold normalizeMinHeight
  simp [h]

/-- The force promotion only touches the Force flag. -/
theorem normalizeForce_fields (o : Options) :
    (normalizeForce o).Width = o.Width ∧ (normalizeForce o).Height = o.Height ∧
    (normalizeForce o).Crop = o.Crop ∧
    (normalizeForce o).MaxWidth = o.MaxWidth ∧
    (normalizeForce o).MaxHeight = o.MaxHeight ∧
    (normalizeForce o).MinWidth = o.MinWidth ∧
    (normalizeForce o).MinHeight = o.MinHeight := by
  unfold normalizeForce
  split <;> simp

/-- With no Max/Min clamp set, `normalizeOperation` is just the force
promotion. -/
theorem normalizeOperation_noclamp (o : Options) (inW inH : Int)
    (h1 : o.MaxWidth = 0) (h2 : o.MaxHeight = 0) (h3 : o.MinWidth = 0)
    (h4 : o.MinHeight = 0) :
    normalizeOperation o inW inH = normalizeForce o := by
  obtain ⟨-, -, -, f1, f2, f3, f4⟩ := normalizeForce_fields o
  unfold normalizeOperation
  rw [normalizeMaxWidth_id _ _ (f1.trans h1),
    normalizeMaxHeight_id _ _ (f2.trans h2),
    normalizeMinWidth_id _ _ (f3.trans h3),
    normalizeMinHeight_id _ _ (f4.trans h4)]

/-- Options as in claim C1: target 200x200 with Crop, Force and Enlarge
all false as supplied by the caller (and every other field zero). -/
def c1CounterOpts : Options := {zeroOptions with Width := 200, Height := 200}

/-- C1 counterexample: a caller-supplied options value satisfying the
claim's hypotheses (Crop=false, Force=false, Enlarge=false, input 100x100
≤ target 200x200) on which the transform is not a no-op:
`normalizeOperation` promotes the bare width/height request to Force=true,
the enlarge guard is skipped, factor/residual stay at 1/2 and 2, the
target dimensions are not reset, and the transform stage does run (a
forced upscale to 200x200). -/
theorem c1_no_upscale_counterexample :
    (c1CounterOpts.Crop = false ∧ c1CounterOpts.Force = false ∧
      c1CounterOpts.Enlarge = false ∧ (100 : Int) ≤ c1CounterOpts.Width ∧
      (100 : Int) ≤ c1CounterOpts.Height) ∧
    ¬((processGeometry 2 c1CounterOpts 100 100).factor = 1 ∧
      (processGeometry 2 c1CounterOpts 100 100).shrink = 1 ∧
      (processGeometry 2 c1CounterOpts 100 100).residual = 0 ∧
      (processGeometry 2 c1CounterOpts 100 100).o.Width = 100 ∧
      (processGeometry 2 c1CounterOpts 100 100).o.Height = 100) ∧
    shouldTransformImage (processGeometry 2 c1CounterOpts 100 100).o 100 100 =
      true := by
  have hval : processGeometry 2 c1CounterOpts 100 100 =
      ⟨{c1CounterOpts with Force := true}, 1/2, 1, 2⟩ := by
    norm_num [processGeometry, normalizeOperation, normalizeForce,
      normalizeMaxWidth, normalizeMaxHeight, normalizeMinWidth,
      normalizeMinHeight, imageCalculations, calculateShrink,
      calculateResidual, c1CounterOpts, zeroOptions]
  rw [hval]
  refine ⟨by decide, ?_, by decide⟩
  intro h
  have := h.1
  norm_num at this

/-- C1 (amended): if additionally Embed is set (so `normalizeOperation`
does not promote the request to Force), no Max/Min clamp or area/trim
option is set, and both input dimensions are strictly below the targets,
then the geometry is a no-op — factor=1, shrink=1, residual=0, the target
Width/Height are reset to the input dimensions — and the transform stage
is skipped, so the pipeline never resizes the image. -/
theorem c1_no_upscale_amended (ws : ℚ) (o : Options) (inW inH : Int)
    (hcrop : o.Crop = false) (hforce : o.Force = false)
    (henl : o.Enlarge = false) (hembed : o.Embed = true)
    (hmaxw : o.MaxWidth = 0) (hmaxh : o.MaxHeight = 0)
    (hminw : o.MinWidth = 0) (hminh : o.MinHeight = 0)
    (haw : o.AreaWidth = 0) (hah : o.AreaHeight = 0) (htrim : o.Trim = false)
    (hw0 : 0 < inW) (hh0 : 0 < inH)
    (hw : inW < o.Width) (hh : inH < o.Height) :
    processGeometry ws o inW inH =
      ⟨{o with Width := inW, Height := inH}, 1, 1, 0⟩ ∧
    shouldTransformImage (processGeometry ws o inW inH).o inW inH = false := by
  have hWpos : 0 < o.Width := lt_trans hw0 hw
  have hHpos : 0 < o.Height := lt_trans hh0 hh
  have hnorm : normalizeOperation o inW inH = o := by
    rw [normalizeOperation_noclamp o inW inH hmaxw hmaxh hminw hminh]
    unfold normalizeForce
    simp [hembed]
  have hcalc : imageCalculations o inW inH =
      (o, max ((inW : ℚ) / (o.Width : ℚ)) ((inH : ℚ) / (o.Height : ℚ))) := by
    unfold imageCalculations
    simp [hWpos, hHpos, hcrop]
  have hgeo : processGeometry ws o inW inH =
      ⟨{o with Width := inW, Height := inH}, 1, 1, 0⟩ := by
    simp only [processGeometry, hnorm, hcalc]
    rw [if_pos ⟨henl, hforce, hw, hh⟩]
  refine ⟨hgeo, ?_⟩
  rw [hgeo]
  unfold shouldTransformImage
  simp [hforce, haw, hah, htrim]

/-- Witness for C1 (amended) at input 100x150 with target 200x300 and
Embed set. -/
theorem c1_no_upscale_amended_witness :
    processGeometry 4 {zeroOptions with Width := 200, Height := 300, Embed := true} 100 150 =
      ⟨{({zeroOptions with Width := 200, Height := 300, Embed := true} : Options) with
          Width := 100, Height := 150}, 1, 1, 0⟩ ∧
    shouldTransformImage
      (processGeometry 4 {zeroOptions with Width := 200, Height := 300, Embed := true} 100 150).o
      100 150 = false :=
  c1_no_upscale_amended 4 {zeroOptions with Width := 200, Height := 300, Embed := true}
    100 150 rfl rfl rfl rfl rfl rfl rfl rfl rfl rfl rfl
    (by decide) (by decide) (by decide) (by decide)

/-- C8: after `normalizeOperation` and `imageCalculations` with only
Width=200 requested (Height=0, Crop=false, no Max/Min clamps), the target
Height is rewritten to round(inputHeight / (inputWidth / 200)) with
round-half-away-from-zero rounding (`roundFloat`). -/
theorem c8_width_only_aspect_height (o : Options) (inW inH : Int)
    (hw0 : 0 < inW) (hh0 : 0 < inH)
    (hW : o.Width = 200) (hH : o.Height = 0) (hcrop : o.Crop = false)
    (hmaxw : o.MaxWidth = 0) (hmaxh : o.MaxHeight = 0)
    (hminw : o.MinWidth = 0) (hminh : o.MinHeight = 0) :
    (imageCalculations (normalizeOperation o inW inH) inW inH).1.Height =
      roundFloat ((inH : ℚ) / ((inW : ℚ) / 200)) := by
  have hn : ∀ p : Options, p.Width = o.Width → p.Height = o.Height →
      p.Crop = o.Crop →
      (imageCalculations p inW inH).1.Height =
        roundFloat ((inH : ℚ) / ((inW : ℚ) / 200)) := by
    intro p hpW hpH hpC
    unfold imageCalculations
    rw [hpW, hpH, hpC, hW, hH, hcrop]
    norm_num
  have hfields : (normalizeOperation o inW inH).Width = o.Width ∧
      (normalizeOperation o inW inH).Height = o.Height ∧
      (normalizeOperation o inW inH).Crop = o.Crop := by
    rw [normalizeOperation_noclamp o inW inH hmaxw hmaxh hminw hminh]
    obtain ⟨f1, f2, f3, -⟩ := normalizeForce_fields o
    exact ⟨f1, f2, f3⟩
  exact hn _ hfields.1 hfields.2.1 hfields.2.2

/-- Witness for C8 at input 300x300: the computed Height is
round(300 / (300/200)) = 200. -/
theorem c8_width_only_aspect_height_witness :
    (0 : Int) < 300 ∧
    (imageCalculations (normalizeOperation {zeroOptions with Width := 200} 300 300) 300 300).1.Height =
      roundFloat ((300 : ℚ) / ((300 : ℚ) / 200)) ∧
    roundFloat ((300 : ℚ) / ((300 : ℚ) / 200)) = 200 :=
  ⟨by decide,
    c8_width_only_aspect_height {zeroOptions with Width := 200} 300 300
      (by decide) (by decide) rfl rfl rfl rfl rfl rfl rfl,
    by norm_num [roundFloat]⟩

end Proofs

end Bimg
